import Mathlib

/-!
Verification of the WRK interrupt-object module (base/ntos/ke/i386/intobj.c).

Shallow embedding of the kernel interrupt-object subsystem: interrupt object
initialization (`KeInitializeInterrupt`), connection and disconnection
(`KeConnectInterrupt` / `KeDisconnectInterrupt`), the vector inspector
(`KiGetVectorInfo`), the vector binder (`KiConnectVectorAndInterruptObject`),
the chained second-level dispatch walk (`KiTimedChainedDispatch2ndLvl`), and
the ISR latency-watchdog calibration (`KiInitializeInterruptTimers` and its
DPC).

Modelling conventions:
* Interrupt objects live at abstract addresses (`Nat` identifiers); the
  system state carries a map from identifier to object, the per-vector
  dispatch-table slot, and the per-vector hardware-enable line state.
* The intrusive circular doubly linked list (`LIST_ENTRY`) is modelled by
  `Flink` / `Blink` fields holding object identifiers, with
  `InitializeListHead`, `InsertTailList` and `RemoveEntryList` translated
  write-for-write from the WDK list macros as used by this module.
* A dispatch-table slot holds either the per-vector unexpected-interrupt
  (no-dispatch) stub or the address of an interrupt object's embedded
  dispatch-code trampoline (from which the C code recovers the object with
  `CONTAINING_RECORD`); this is the inductive `IDTTarget`.
* The dispatch-stage entry points (`KiInterruptDispatch`,
  `KiFloatingDispatch`, `KiChainedDispatch` for directly-vectored interrupts;
  `KiInterruptDispatch2ndLvl`, `KiChainedDispatch2ndLvl` for flat secondary
  dispatch) are the constructors of `Routine`.  The shape of a vector
  (direct IDT entry vs. flat table, i.e. the result of
  `HalSystemVectorDispatchEntry`) is provided by the environment.
* HAL operations (`HalEnableSystemInterrupt`, `HalDisableSystemInterrupt`)
  are modelled through the environment (`halEnableOk` says whether an enable
  succeeds) and the `enabled` line-state map.
* Machine integers: `KIRQL` and vector numbers are `Nat` (the code only
  compares them); the 64-bit `ULONGLONG` arithmetic of the watchdog is `Nat`
  with explicit reduction modulo `2 ^ 64` where the machine wraps.
-/

namespace Intobj

/-- Interrupt electrical mode (`KINTERRUPT_MODE`). -/
inductive KINTERRUPT_MODE where
  | LevelSensitive
  | Latched
deriving DecidableEq, Repr

/-- Dispatch-stage entry points referenced by `intobj.c`.  `UnknownRoutine n`
stands for any address that is none of the five known entry points (the
defensive `UnknownConnect` case of the inspector). -/
inductive Routine where
  | KiInterruptDispatch
  | KiFloatingDispatch
  | KiChainedDispatch
  | KiInterruptDispatch2ndLvl
  | KiChainedDispatch2ndLvl
  | UnknownRoutine (n : Nat)
deriving DecidableEq, Repr

/-- `CONNECT_TYPE` from `intobj.c`. -/
inductive CONNECT_TYPE where
  | NoConnect
  | NormalConnect
  | ChainConnect
  | UnknownConnect
deriving DecidableEq, Repr

/-- The `KINTERRUPT` object.  Fields are the ones `intobj.c` reads or
writes.  `ActualLock = none` means the object uses its own embedded spin
lock, `some l` a caller-supplied lock `l`.  The embedded dispatch-code
trampoline is represented by its two patch sites: `DispatchCodeObject`
(the object self-reference patched by `KeInitializeInterrupt`) and
`DispatchCodeTarget` (the branch target patched by
`KiConnectVectorAndInterruptObject`); `none` means the field still holds
the template's original bytes. -/
structure KINTERRUPT where
  ServiceRoutine : Nat
  ServiceContext : Nat
  ActualLock : Option Nat
  Vector : Nat
  Irql : Nat
  SynchronizeIrql : Nat
  Mode : KINTERRUPT_MODE
  ShareVector : Bool
  Number : Nat
  FloatingSave : Bool
  TickCount : Nat
  DispatchCount : Nat
  Connected : Bool
  DispatchAddress : Option Routine
  Flink : Nat
  Blink : Nat
  DispatchCodeObject : Option Nat
  DispatchCodeTarget : Option Routine
deriving DecidableEq, Repr

/-- What a vector's dispatch-table slot currently holds: the per-vector
no-dispatch (unexpected interrupt) stub, or the dispatch code of an
interrupt object. -/
inductive IDTTarget where
  | NoDispatch
  | ObjCode (id : Nat)
deriving DecidableEq, Repr

/-- Mutable system state seen by this module: the interrupt objects, the
vector dispatch table, and the per-vector hardware line enable state. -/
structure KState where
  objs : Nat → KINTERRUPT
  idt : Nat → IDTTarget
  enabled : Nat → Bool

/-- Static environment: number of processors (`KeNumberProcessors`), the
outcome of `HalEnableSystemInterrupt` per vector, and the dispatch-table
shape per vector (`flatShape v = true` means `HalSystemVectorDispatchEntry`
reports secondary/flat dispatch for `v`). -/
structure Env where
  KeNumberProcessors : Nat
  halEnableOk : Nat → Bool
  flatShape : Nat → Bool

/-- `HIGH_LEVEL`, the maximum hardware IRQL on x86. -/
def HIGH_LEVEL : Nat := 31

/-- Pointwise update of the object map. -/
def updObj (f : Nat → KINTERRUPT) (id : Nat) (v : KINTERRUPT) : Nat → KINTERRUPT :=
  fun n => if n = id then v else f n

/-- Pointwise update of the dispatch table. -/
def updIdt (f : Nat → IDTTarget) (v : Nat) (t : IDTTarget) : Nat → IDTTarget :=
  fun n => if n = v then t else f n

/-- Pointwise update of the line-enable map. -/
def updEn (f : Nat → Bool) (v : Nat) (b : Bool) : Nat → Bool :=
  fun n => if n = v then b else f n

/-- Replace the object stored at `id`. -/
def setObj (s : KState) (id : Nat) (v : KINTERRUPT) : KState :=
  { s with objs := updObj s.objs id v }

/-- The normal (interrupt) dispatch entry point for a vector shape, as
selected by the `switch (DispatchType)` in `KiGetVectorInfo`:
`KiInterruptDispatch` for direct vectors (`DispatchType = 0`),
`KiInterruptDispatch2ndLvl` for flat vectors (`DispatchType = 1`). -/
def InterruptDispatchEP (flat : Bool) : Routine :=
  if flat then Routine.KiInterruptDispatch2ndLvl else Routine.KiInterruptDispatch

/-- The floating dispatch entry point for a vector shape:
`KiFloatingDispatch` for direct vectors,
`KiInterruptDispatch2ndLvl` for flat vectors. -/
def FloatingDispatchEP (flat : Bool) : Routine :=
  if flat then Routine.KiInterruptDispatch2ndLvl else Routine.KiFloatingDispatch

/-- The chained dispatch entry point for a vector shape: `KiChainedDispatch`
for direct vectors, `KiChainedDispatch2ndLvl` for flat vectors. -/
def ChainedDispatchEP (flat : Bool) : Routine :=
  if flat then Routine.KiChainedDispatch2ndLvl else Routine.KiChainedDispatch

/-- `DISPATCH_INFO` from `intobj.c` (the `NoDispatch` stub and the
flat-table reference are folded into `IDTTarget` / `Env`). -/
structure DISPATCH_INFO where
  CType : CONNECT_TYPE
  Interrupt : Nat
  InterruptDispatch : Routine
  FloatingDispatch : Routine
  ChainedDispatch : Routine
deriving DecidableEq, Repr

/-- `KiGetVectorInfo`: classify the current occupant of `Vector`.  If the
installed target is the no-dispatch stub the vector is `NoConnect`
(the occupant field is unused garbage in the C code; `0` here); otherwise
the occupant is recovered from the installed dispatch code and classified
by comparing its currently patched `DispatchAddress` with the chained,
normal and floating entry points for the vector's table shape. -/
def KiGetVectorInfo (env : Env) (s : KState) (Vector : Nat) : DISPATCH_INFO :=
  let flat := env.flatShape Vector
  match s.idt Vector with
  | IDTTarget.NoDispatch =>
      { CType := CONNECT_TYPE.NoConnect, Interrupt := 0,
        InterruptDispatch := InterruptDispatchEP flat,
        FloatingDispatch := FloatingDispatchEP flat,
        ChainedDispatch := ChainedDispatchEP flat }
  | IDTTarget.ObjCode occ =>
      let d := (s.objs occ).DispatchAddress
      let ty :=
        if d = some (ChainedDispatchEP flat) then CONNECT_TYPE.ChainConnect
        else if d = some (InterruptDispatchEP flat) ∨ d = some (FloatingDispatchEP flat) then
          CONNECT_TYPE.NormalConnect
        else CONNECT_TYPE.UnknownConnect
      { CType := ty, Interrupt := occ,
        InterruptDispatch := InterruptDispatchEP flat,
        FloatingDispatch := FloatingDispatchEP flat,
        ChainedDispatch := ChainedDispatchEP flat }

/-- `KiConnectVectorAndInterruptObject`: rebind vector `(s.objs id).Vector`.
For `NoConnect` only the table slot is rewritten to the no-dispatch stub
(the object itself is untouched).  Otherwise the dispatch address for the
requested type is selected (chained; or normal, with the floating entry if
the object requests floating save), stored in the object's
`DispatchAddress`, patched into its trampoline branch field, and the slot
is pointed at the object's dispatch code. -/
def KiConnectVectorAndInterruptObject (env : Env) (s : KState) (id : Nat)
    (CType : CONNECT_TYPE) : KState :=
  let i := s.objs id
  let info := KiGetVectorInfo env s i.Vector
  if CType = CONNECT_TYPE.NoConnect then
    { s with idt := updIdt s.idt i.Vector IDTTarget.NoDispatch }
  else
    let DispatchAddress :=
      if CType = CONNECT_TYPE.NormalConnect then
        (if i.FloatingSave then info.FloatingDispatch else info.InterruptDispatch)
      else info.ChainedDispatch
    let i1 := { i with DispatchAddress := some DispatchAddress,
                       DispatchCodeTarget := some DispatchAddress }
    let s1 := { s with objs := updObj s.objs id i1 }
    { s1 with idt := updIdt s1.idt i.Vector (IDTTarget.ObjCode id) }

/-- `InitializeListHead` on the object's embedded list entry: both links
point back at the object itself. -/
def InitializeListHead (s : KState) (id : Nat) : KState :=
  { s with objs := updObj s.objs id { s.objs id with Flink := id, Blink := id } }

/-- `InsertTailList (&head->InterruptListEntry, &entry->InterruptListEntry)`,
translated write-for-write: `Blink = head->Blink; entry->Flink = head;
entry->Blink = Blink; Blink->Flink = entry; head->Blink = entry`. -/
def InsertTailList (s : KState) (headId entryId : Nat) : KState :=
  let blinkId := (s.objs headId).Blink
  let s1 := setObj s entryId { s.objs entryId with Flink := headId, Blink := blinkId }
  let s2 := setObj s1 blinkId { s1.objs blinkId with Flink := entryId }
  setObj s2 headId { s2.objs headId with Blink := entryId }

/-- `RemoveEntryList (&entry->InterruptListEntry)`: the neighbours are
relinked around the entry; the entry's own links are left dangling exactly
as in the C macro. -/
def RemoveEntryList (s : KState) (entryId : Nat) : KState :=
  let flinkId := (s.objs entryId).Flink
  let blinkId := (s.objs entryId).Blink
  let s1 := setObj s blinkId { s.objs blinkId with Flink := flinkId }
  setObj s1 flinkId { s1.objs flinkId with Blink := blinkId }

/-- `KeInitializeInterrupt`: set every argument-derived field, the object
header and storm-detection counters, copy the dispatch-code template and
patch its object self-reference, and clear `Connected`.  The list links and
`DispatchAddress` are not written by this function (the template copy
resets the trampoline branch field to its unpatched template value).
Affects no vector-table slot and no hardware line. -/
def KeInitializeInterrupt (s : KState) (id : Nat)
    (ServiceRoutine ServiceContext : Nat) (SpinLock : Option Nat)
    (Vector Irql SynchronizeIrql : Nat) (InterruptMode : KINTERRUPT_MODE)
    (ShareVector : Bool) (ProcessorNumber : Nat) (FloatingSave : Bool) :
    KState :=
  let i := s.objs id
  let i1 : KINTERRUPT :=
    { i with
      ServiceRoutine := ServiceRoutine
      ServiceContext := ServiceContext
      ActualLock := SpinLock
      Vector := Vector
      Irql := Irql
      SynchronizeIrql := SynchronizeIrql
      Mode := InterruptMode
      ShareVector := ShareVector
      Number := ProcessorNumber
      FloatingSave := FloatingSave
      TickCount := 2 ^ 32 - 1
      DispatchCount := 2 ^ 32 - 1
      DispatchCodeObject := some id
      DispatchCodeTarget := none
      Connected := false }
  { s with objs := updObj s.objs id i1 }

/-- `KeDisconnectInterrupt`.  Returns the `Connected` value observed (the
function's boolean result) and the new state.  For a chained vector: head
promotion if the removed object is the chain head, unlink, collapse to
normal dispatch if exactly one member remains.  Otherwise the hardware line
is disabled and the slot rewritten to the no-dispatch stub. -/
def KeDisconnectInterrupt (env : Env) (s : KState) (id : Nat) :
    Bool × KState :=
  let i := s.objs id
  if i.Connected then
    let info := KiGetVectorInfo env s i.Vector
    if info.CType = CONNECT_TYPE.ChainConnect then
      let p : KState × Nat :=
        if id = info.Interrupt then
          let nxt := (s.objs info.Interrupt).Flink
          (KiConnectVectorAndInterruptObject env s nxt CONNECT_TYPE.ChainConnect, nxt)
        else (s, info.Interrupt)
      let s2 := RemoveEntryList p.1 id
      let Interrupty := (s2.objs p.2).Flink
      let s3 :=
        if p.2 = Interrupty then
          KiConnectVectorAndInterruptObject env s2 Interrupty CONNECT_TYPE.NormalConnect
        else s2
      (true, setObj s3 id { s3.objs id with Connected := false })
    else
      let s1 := { s with enabled := updEn s.enabled i.Vector false }
      let s2 := KiConnectVectorAndInterruptObject env s1 id CONNECT_TYPE.NoConnect
      (true, setObj s2 id { s2.objs id with Connected := false })
  else
    (false, s)

/-- `KeConnectInterrupt`.  Parameter validation, then: unoccupied vector →
normal connect plus hardware enable with rollback through a full
`KeDisconnectInterrupt` on enable failure; occupied by a known, shareable,
mode-matching occupant → chain join (rebinding the occupant to chained
dispatch first if it was connected normally, then appending at the tail of
its circular list); anything else → failure with no state change. -/
def KeConnectInterrupt (env : Env) (s : KState) (id : Nat) :
    Bool × KState :=
  let i := s.objs id
  if HIGH_LEVEL < i.Irql ∨ env.KeNumberProcessors ≤ i.Number ∨
      i.SynchronizeIrql < i.Irql ∨ i.FloatingSave = true then
    (false, s)
  else if i.Connected then
    (false, s)
  else
    let info := KiGetVectorInfo env s i.Vector
    if info.CType = CONNECT_TYPE.NoConnect then
      let s1 := { s with objs := updObj s.objs id { i with Connected := true } }
      let s2 := InitializeListHead s1 id
      let s3 := KiConnectVectorAndInterruptObject env s2 id CONNECT_TYPE.NormalConnect
      if env.halEnableOk i.Vector then
        (true, { s3 with enabled := updEn s3.enabled i.Vector true })
      else
        (false, (KeDisconnectInterrupt env s3 id).2)
    else if info.CType ≠ CONNECT_TYPE.UnknownConnect ∧
        i.ShareVector = true ∧
        (s.objs info.Interrupt).ShareVector = true ∧
        (s.objs info.Interrupt).Mode = i.Mode then
      let s1 := { s with objs := updObj s.objs id { i with Connected := true } }
      let s2 :=
        if info.CType ≠ CONNECT_TYPE.ChainConnect then
          KiConnectVectorAndInterruptObject env s1 info.Interrupt CONNECT_TYPE.ChainConnect
        else s1
      (true, InsertTailList s2 info.Interrupt id)
    else
      (false, s)

/-- Outcome of the chained second-level dispatch walk, with the number of
service-routine invocations made.  `HandledLevel`: returned because the
accumulated handled flag was set and the current member is level-sensitive.
`EndBreak`: the `break` at the end of the list with the handled flag still
clear.  `AssertViolation`: the `ASSERT (Interrupt->Mode != LevelSensitive)`
at the end of the list fired (the kernel's fatal-error surface for an
unclaimed level-triggered line).  `OutOfFuel`: the step budget ran out with
the loop still running. -/
inductive WalkOutcome where
  | HandledLevel (calls : Nat)
  | EndBreak (calls : Nat)
  | AssertViolation (calls : Nat)
  | OutOfFuel (calls : Nat)
deriving DecidableEq, Repr

/-- `KiTimedChainedDispatch2ndLvl`, the C chained-dispatch walk.  `objs`
gives each chain member; `svc k cur` is the boolean returned by the `k`-th
service-routine invocation (made on member `cur`); `listEnd` is the object
whose list entry the loop captured as `ListEnd` (the head the walk started
from); `calls` counts invocations so far; `cur` is the current member;
`Handled` is the OR-accumulated handled flag.  The IRQL raise/lower, the
per-object spin lock and the timing bookkeeping of the C body are
control-flow-neutral and are not represented.  `fuel` bounds the number of
iterations so the (possibly non-terminating) loop is total in Lean. -/
def KiTimedChainedDispatch2ndLvl (objs : Nat → KINTERRUPT)
    (svc : Nat → Nat → Bool) (listEnd : Nat) :
    Nat → Nat → Nat → Bool → WalkOutcome
  | 0, calls, _, _ => WalkOutcome.OutOfFuel calls
  | fuel + 1, calls, cur, Handled =>
    let i := objs cur
    let Handled1 := Handled || svc calls cur
    if Handled1 = true ∧ i.Mode = KINTERRUPT_MODE.LevelSensitive then
      WalkOutcome.HandledLevel (calls + 1)
    else if i.Flink = listEnd then
      if i.Mode = KINTERRUPT_MODE.LevelSensitive then
        WalkOutcome.AssertViolation (calls + 1)
      else if Handled1 = false then
        WalkOutcome.EndBreak (calls + 1)
      else
        KiTimedChainedDispatch2ndLvl objs svc listEnd fuel (calls + 1) i.Flink Handled1
    else
      KiTimedChainedDispatch2ndLvl objs svc listEnd fuel (calls + 1) i.Flink Handled1

/-- The initial value of `KiIsrTscLimit`: watchdog disabled until
calibration completes. -/
def KiIsrTscLimitInitial : Nat := 2 ^ 64 - 1

/-- The watchdog calibration state: the `KiIsrTscLimit` threshold, the
`InitialTime` field of the transient `KISRTIMERINIT` record, and whether
the calibration sample timer is currently set. -/
structure WatchdogState where
  KiIsrTscLimit : Nat
  InitialTime : Nat
  TimerActive : Bool
deriving DecidableEq, Repr

/-- Watchdog state at kernel start. -/
def initialWatchdog : WatchdogState :=
  { KiIsrTscLimit := KiIsrTscLimitInitial, InitialTime := 0, TimerActive := false }

/-- `KiInitializeInterruptTimersDpc`: one firing of the calibration DPC.
`L` is `KiTimeLimitIsrMicroseconds`, `tsc` the value `RDTSC()` returns at
this firing.  First pass (threshold still at its initial value): record the
starting TSC and move the threshold to `2 ^ 64 - 2`.  Second pass: cancel
the timer, compute the 64-bit TSC delta, multiply by `L` in wrapping
64-bit (`ULONGLONG`) arithmetic, divide by `10 * 1000 * 1000`, and install
the result as the active threshold. -/
def KiInitializeInterruptTimersDpc (L : Nat) (tsc : Nat)
    (w : WatchdogState) : WatchdogState :=
  if w.KiIsrTscLimit = 2 ^ 64 - 1 then
    { w with InitialTime := tsc % 2 ^ 64, KiIsrTscLimit := 2 ^ 64 - 2 }
  else
    let Delta := (tsc % 2 ^ 64 + 2 ^ 64 - w.InitialTime % 2 ^ 64) % 2 ^ 64
    let Delta1 := Delta * L % 2 ^ 64
    let Delta2 := Delta1 / (10 * 1000 * 1000)
    { w with KiIsrTscLimit := Delta2, TimerActive := false }

/-- `KiInitializeInterruptTimers`: sets the ten-second calibration sample
timer, unless the configured microsecond limit is zero, the processor lacks
the `RDTSC` feature (`KeFeatureBits & KF_RDTSC`), or the pool allocation of
the transient timer record fails — in each of those cases it returns with
no effect. -/
def KiInitializeInterruptTimers (rdtscSupported : Bool) (L : Nat)
    (allocOk : Bool) (w : WatchdogState) : WatchdogState :=
  if L = 0 then w
  else if rdtscSupported = false then w
  else if allocOk = false then w
  else { w with TimerActive := true }

/-- An interrupt object with every field at a neutral value; concrete
scenarios initialize it through `KeInitializeInterrupt`. -/
def blankInterrupt : KINTERRUPT :=
  { ServiceRoutine := 0, ServiceContext := 0, ActualLock := none,
    Vector := 0, Irql := 0, SynchronizeIrql := 0,
    Mode := KINTERRUPT_MODE.Latched, ShareVector := false, Number := 0,
    FloatingSave := false, TickCount := 0, DispatchCount := 0,
    Connected := false, DispatchAddress := none, Flink := 0, Blink := 0,
    DispatchCodeObject := none, DispatchCodeTarget := none }

/-- System state with no object connected: every dispatch slot holds the
no-dispatch stub and every line is disabled. -/
def emptyState : KState :=
  { objs := fun _ => blankInterrupt, idt := fun _ => IDTTarget.NoDispatch,
    enabled := fun _ => false }

/-- Concrete single-processor environment: every hardware enable succeeds
and every vector uses a direct IDT entry. -/
def env0 : Env :=
  { KeNumberProcessors := 1, halEnableOk := fun _ => true,
    flatShape := fun _ => false }

/-- Environment in which every `HalEnableSystemInterrupt` call fails. -/
def envEnableFail : Env :=
  { KeNumberProcessors := 1, halEnableOk := fun _ => false,
    flatShape := fun _ => false }

/-- End-to-end scenario (spec §8): object 1 initialized with vector `0x41`,
request level 5, synchronize level 5, level-sensitive, non-shareable,
processor 0, no floating save. -/
def exState1 : KState :=
  KeInitializeInterrupt emptyState 1 7 0 none 65 5 5
    KINTERRUPT_MODE.LevelSensitive false 0 false

/-- First `Connect` of the end-to-end scenario. -/
def exConnect1 : Bool × KState := KeConnectInterrupt env0 exState1 1

/-- Second `Connect` (already connected). -/
def exConnect2 : Bool × KState := KeConnectInterrupt env0 exConnect1.2 1

/-- First `Disconnect`. -/
def exDisconnect1 : Bool × KState := KeDisconnectInterrupt env0 exConnect2.2 1

/-- Second `Disconnect` (no longer connected). -/
def exDisconnect2 : Bool × KState := KeDisconnectInterrupt env0 exDisconnect1.2 1

/-- Shared-vector scenario: objects 1, 2, 3 initialized on vector 80,
latched (edge-triggered), shareable, processor 0. -/
def shState1 : KState :=
  KeInitializeInterrupt emptyState 1 0 0 none 80 5 5
    KINTERRUPT_MODE.Latched true 0 false

/-- Second object of the shared-vector scenario. -/
def shState2 : KState :=
  KeInitializeInterrupt shState1 2 0 0 none 80 5 5
    KINTERRUPT_MODE.Latched true 0 false

/-- Third object of the shared-vector scenario. -/
def shState3 : KState :=
  KeInitializeInterrupt shState2 3 0 0 none 80 5 5
    KINTERRUPT_MODE.Latched true 0 false

/-- Connect object 1 (A) to vector 80: exclusive owner. -/
def shConnectA : Bool × KState := KeConnectInterrupt env0 shState3 1

/-- Connect object 2 (B): joins A, forming a two-object chain. -/
def shConnectB : Bool × KState := KeConnectInterrupt env0 shConnectA.2 2

/-- Connect object 3 (C): appends to the tail, chain order A, B, C. -/
def shConnectC : Bool × KState := KeConnectInterrupt env0 shConnectB.2 3

/-- A two-member circular chain of edge-triggered (latched) objects at
identifiers 0 and 1. -/
def edgeChainObjs : Nat → KINTERRUPT :=
  fun n => { blankInterrupt with Flink := if n = 0 then 1 else 0 }

/-- A two-member circular chain of level-sensitive objects at
identifiers 0 and 1. -/
def lvlChainObjs : Nat → KINTERRUPT :=
  fun n =>
    { blankInterrupt with
      Mode := KINTERRUPT_MODE.LevelSensitive
      Flink := if n = 0 then 1 else 0 }

/-! ## Theorems -/

/-- C1: `KeConnectInterrupt` rejects an object whose request level exceeds
`HIGH_LEVEL`, whose processor number is out of range, whose synchronize
level is below its request level, or whose floating-save flag is set:
it returns `FALSE` and the whole system state — connected flag, chain
links, vector table and line state included — is exactly the state before
the call. -/
theorem KeConnectInterrupt_invalid_params_reject (env : Env) (s : KState)
    (id : Nat)
    (h : HIGH_LEVEL < (s.objs id).Irql ∨
         env.KeNumberProcessors ≤ (s.objs id).Number ∨
         (s.objs id).SynchronizeIrql < (s.objs id).Irql ∨
         (s.objs id).FloatingSave = true) :
    KeConnectInterrupt env s id = (false, s) := by
  unfold KeConnectInterrupt
  rw [if_pos h]

/-- Witness for C1: an object with synchronize level 3 below request
level 5 is rejected with no state change. -/
theorem KeConnectInterrupt_invalid_params_reject_witness :
    KeConnectInterrupt env0
      (KeInitializeInterrupt emptyState 1 7 0 none 65 5 3
        KINTERRUPT_MODE.LevelSensitive false 0 false) 1 =
    (false, KeInitializeInterrupt emptyState 1 7 0 none 65 5 3
        KINTERRUPT_MODE.LevelSensitive false 0 false) :=
  KeConnectInterrupt_invalid_params_reject env0
    (KeInitializeInterrupt emptyState 1 7 0 none 65 5 3
      KINTERRUPT_MODE.LevelSensitive false 0 false) 1
    (by decide)

/-- C10: `KeInitializeInterrupt` always succeeds (it is a total function
with no failure result), stores every argument-derived field of the object,
initializes the storm-detection counters, patches the embedded trampoline's
self-reference with the object's own address, leaves `Connected = FALSE`,
and performs no hardware side effect: the vector table, the line-enable
state and every other object are untouched. -/
theorem KeInitializeInterrupt_spec (s : KState) (id sr ctx : Nat)
    (lk : Option Nat) (vec irql sirql : Nat) (mode : KINTERRUPT_MODE)
    (sh : Bool) (pn : Nat) (fs : Bool) :
    ((KeInitializeInterrupt s id sr ctx lk vec irql sirql mode sh pn fs).objs id).ServiceRoutine = sr ∧
    ((KeInitializeInterrupt s id sr ctx lk vec irql sirql mode sh pn fs).objs id).ServiceContext = ctx ∧
    ((KeInitializeInterrupt s id sr ctx lk vec irql sirql mode sh pn fs).objs id).ActualLock = lk ∧
    ((KeInitializeInterrupt s id sr ctx lk vec irql sirql mode sh pn fs).objs id).Vector = vec ∧
    ((KeInitializeInterrupt s id sr ctx lk vec irql sirql mode sh pn fs).objs id).Irql = irql ∧
    ((KeInitializeInterrupt s id sr ctx lk vec irql sirql mode sh pn fs).objs id).SynchronizeIrql = sirql ∧
    ((KeInitializeInterrupt s id sr ctx lk vec irql sirql mode sh pn fs).objs id).Mode = mode ∧
    ((KeInitializeInterrupt s id sr ctx lk vec irql sirql mode sh pn fs).objs id).ShareVector = sh ∧
    ((KeInitializeInterrupt s id sr ctx lk vec irql sirql mode sh pn fs).objs id).Number = pn ∧
    ((KeInitializeInterrupt s id sr ctx lk vec irql sirql mode sh pn fs).objs id).FloatingSave = fs ∧
    ((KeInitializeInterrupt s id sr ctx lk vec irql sirql mode sh pn fs).objs id).TickCount = 2 ^ 32 - 1 ∧
    ((KeInitializeInterrupt s id sr ctx lk vec irql sirql mode sh pn fs).objs id).DispatchCount = 2 ^ 32 - 1 ∧
    ((KeInitializeInterrupt s id sr ctx lk vec irql sirql mode sh pn fs).objs id).DispatchCodeObject = some id ∧
    ((KeInitializeInterrupt s id sr ctx lk vec irql sirql mode sh pn fs).objs id).Connected = false ∧
    (KeInitializeInterrupt s id sr ctx lk vec irql sirql mode sh pn fs).idt = s.idt ∧
    (KeInitializeInterrupt s id sr ctx lk vec irql sirql mode sh pn fs).enabled = s.enabled ∧
    (∀ j, j ≠ id →
      (KeInitializeInterrupt s id sr ctx lk vec irql sirql mode sh pn fs).objs j = s.objs j) := by
  refine ⟨?_, ?_, ?_, ?_, ?_, ?_, ?_, ?_, ?_, ?_, ?_, ?_, ?_, ?_, ?_, ?_, ?_⟩ <;>
    first
      | (intro j hj; simp [KeInitializeInterrupt, updObj, hj])
      | simp [KeInitializeInterrupt, updObj]

/-- Witness for C10 at a concrete initialization. -/
theorem KeInitializeInterrupt_spec_witness :
    ((KeInitializeInterrupt emptyState 1 7 9 (some 4) 65 5 6
        KINTERRUPT_MODE.LevelSensitive true 0 false).objs 1).ServiceRoutine = 7 ∧
    ((KeInitializeInterrupt emptyState 1 7 9 (some 4) 65 5 6
        KINTERRUPT_MODE.LevelSensitive true 0 false).objs 1).Connected = false :=
  ⟨(KeInitializeInterrupt_spec emptyState 1 7 9 (some 4) 65 5 6
      KINTERRUPT_MODE.LevelSensitive true 0 false).1,
   (KeInitializeInterrupt_spec emptyState 1 7 9 (some 4) 65 5 6
      KINTERRUPT_MODE.LevelSensitive true 0 false).2.2.2.2.2.2.2.2.2.2.2.2.2.1⟩

/-- C9: end-to-end lifecycle on an unoccupied vector with the hardware
enable succeeding (object 1: vector `0x41`, request level 5, synchronize
level 5, level-sensitive, non-shareable, processor 0): the first `Connect`
returns `TRUE`; a second `Connect` on the already-connected object returns
`FALSE` with the state — hardware and table included — unchanged; the
first `Disconnect` returns `TRUE`; a second `Disconnect` returns `FALSE`
with the state unchanged. -/
theorem connect_disconnect_end_to_end :
    exConnect1.1 = true ∧
    exConnect2 = (false, exConnect1.2) ∧
    exDisconnect1.1 = true ∧
    exDisconnect2 = (false, exDisconnect1.2) :=
  ⟨rfl, rfl, rfl, rfl⟩

/-- C5: classification performed by `KiGetVectorInfo`.  A vector is
`NoConnect` exactly when its installed dispatch target is the no-dispatch
(unexpected-interrupt) stub.  Otherwise the occupant recorded in the
returned info is the object whose dispatch code is installed, and the
classification follows the occupant's currently patched dispatch address:
`ChainConnect` iff it equals the chained dispatch entry point for the
vector's table shape, `NormalConnect` iff it equals the normal or the
floating entry point, and `UnknownConnect` iff it is none of these.
(The inspector itself is a pure function of the state: it returns a
`DISPATCH_INFO` and no successor state, so it can mutate nothing.) -/
theorem KiGetVectorInfo_classification (env : Env) (s : KState) (v : Nat) :
    ((KiGetVectorInfo env s v).CType = CONNECT_TYPE.NoConnect ↔
      s.idt v = IDTTarget.NoDispatch) ∧
    (∀ occ, s.idt v = IDTTarget.ObjCode occ →
      (KiGetVectorInfo env s v).Interrupt = occ ∧
      ((KiGetVectorInfo env s v).CType = CONNECT_TYPE.ChainConnect ↔
        (s.objs occ).DispatchAddress =
          some (ChainedDispatchEP (env.flatShape v))) ∧
      ((KiGetVectorInfo env s v).CType = CONNECT_TYPE.NormalConnect ↔
        ((s.objs occ).DispatchAddress =
            some (InterruptDispatchEP (env.flatShape v)) ∨
         (s.objs occ).DispatchAddress =
            some (FloatingDispatchEP (env.flatShape v)))) ∧
      ((KiGetVectorInfo env s v).CType = CONNECT_TYPE.UnknownConnect ↔
        ((s.objs occ).DispatchAddress ≠
            some (ChainedDispatchEP (env.flatShape v)) ∧
         (s.objs occ).DispatchAddress ≠
            some (InterruptDispatchEP (env.flatShape v)) ∧
         (s.objs occ).DispatchAddress ≠
            some (FloatingDispatchEP (env.flatShape v))))) := by
  refine ⟨?_, ?_⟩
  · cases hslot : s.idt v with
    | NoDispatch => simp [KiGetVectorInfo, hslot]
    | ObjCode occ =>
      simp only [KiGetVectorInfo, hslot]
      split_ifs <;> simp
  · intro occ hocc
    simp only [KiGetVectorInfo, hocc]
    refine ⟨trivial, ?_⟩
    rcases hd : (s.objs occ).DispatchAddress with _ | r <;>
      cases hflat : env.flatShape v <;>
        simp only [hd, hflat, InterruptDispatchEP, FloatingDispatchEP,
          ChainedDispatchEP, Bool.false_eq_true, if_false, if_true] <;>
          split_ifs <;> simp_all <;> tauto

/-- Witness for C5 at a concrete occupied vector. -/
theorem KiGetVectorInfo_classification_witness :
    ((KiGetVectorInfo env0 exConnect1.2 65).CType = CONNECT_TYPE.NoConnect ↔
      exConnect1.2.idt 65 = IDTTarget.NoDispatch) ∧
    ((KiGetVectorInfo env0 exConnect1.2 65).Interrupt = 1 ∧
      ((KiGetVectorInfo env0 exConnect1.2 65).CType = CONNECT_TYPE.ChainConnect ↔
        (exConnect1.2.objs 1).DispatchAddress =
          some (ChainedDispatchEP (env0.flatShape 65))) ∧
      ((KiGetVectorInfo env0 exConnect1.2 65).CType = CONNECT_TYPE.NormalConnect ↔
        ((exConnect1.2.objs 1).DispatchAddress =
            some (InterruptDispatchEP (env0.flatShape 65)) ∨
         (exConnect1.2.objs 1).DispatchAddress =
            some (FloatingDispatchEP (env0.flatShape 65)))) ∧
      ((KiGetVectorInfo env0 exConnect1.2 65).CType = CONNECT_TYPE.UnknownConnect ↔
        ((exConnect1.2.objs 1).DispatchAddress ≠
            some (ChainedDispatchEP (env0.flatShape 65)) ∧
         (exConnect1.2.objs 1).DispatchAddress ≠
            some (InterruptDispatchEP (env0.flatShape 65)) ∧
         (exConnect1.2.objs 1).DispatchAddress ≠
            some (FloatingDispatchEP (env0.flatShape 65))))) :=
  ⟨(KiGetVectorInfo_classification env0 exConnect1.2 65).1,
   (KiGetVectorInfo_classification env0 exConnect1.2 65).2 1 (by decide)⟩

/-- C2: if `KeConnectInterrupt` finds the vector unoccupied, binds the
object as the normal exclusive owner, and the hardware enable
(`HalEnableSystemInterrupt`) then fails, it performs a full disconnect
before returning: the call returns `FALSE`, the object's connected flag is
back to `FALSE`, the vector is bound back to the no-dispatch stub, and the
hardware line is left disabled — no state is left connected without a live
hardware enable. -/
theorem connect_enable_failure_rolls_back (env : Env) (s : KState) (id : Nat)
    (hval : ¬(HIGH_LEVEL < (s.objs id).Irql ∨
              env.KeNumberProcessors ≤ (s.objs id).Number ∨
              (s.objs id).SynchronizeIrql < (s.objs id).Irql ∨
              (s.objs id).FloatingSave = true))
    (hnc : (s.objs id).Connected = false)
    (hslot : s.idt (s.objs id).Vector = IDTTarget.NoDispatch)
    (hfail : env.halEnableOk (s.objs id).Vector = false) :
    (KeConnectInterrupt env s id).1 = false ∧
    ((KeConnectInterrupt env s id).2.objs id).Connected = false ∧
    (KeConnectInterrupt env s id).2.idt (s.objs id).Vector =
      IDTTarget.NoDispatch ∧
    (KeConnectInterrupt env s id).2.enabled (s.objs id).Vector = false := by
  have hfs : (s.objs id).FloatingSave = false := by
    cases h : (s.objs id).FloatingSave
    · rfl
    · exact absurd (Or.inr (Or.inr (Or.inr h))) hval
  have h1 : ¬HIGH_LEVEL < (s.objs id).Irql := fun h => hval (Or.inl h)
  have h2 : ¬env.KeNumberProcessors ≤ (s.objs id).Number :=
    fun h => hval (Or.inr (Or.inl h))
  have h3 : ¬(s.objs id).SynchronizeIrql < (s.objs id).Irql :=
    fun h => hval (Or.inr (Or.inr (Or.inl h)))
  cases hflat : env.flatShape (s.objs id).Vector <;>
    simp [KeConnectInterrupt, KeDisconnectInterrupt,
      KiConnectVectorAndInterruptObject, KiGetVectorInfo,
      InitializeListHead, setObj, updObj, updIdt, updEn,
      InterruptDispatchEP, FloatingDispatchEP, ChainedDispatchEP,
      h1, h2, h3, hnc, hslot, hfail, hfs, hflat]

/-- Witness for C2: concrete connect on vector `0x41` with the hardware
enable failing. -/
theorem connect_enable_failure_rolls_back_witness :
    (KeConnectInterrupt envEnableFail exState1 1).1 = false ∧
    ((KeConnectInterrupt envEnableFail exState1 1).2.objs 1).Connected = false ∧
    (KeConnectInterrupt envEnableFail exState1 1).2.idt
      ((exState1.objs 1).Vector) = IDTTarget.NoDispatch ∧
    (KeConnectInterrupt envEnableFail exState1 1).2.enabled
      ((exState1.objs 1).Vector) = false :=
  connect_enable_failure_rolls_back envEnableFail exState1 1
    (by decide) (by decide) (by decide) (by decide)

/-- C3: connecting to a vector occupied by an object classified
`NormalConnect` or `ChainConnect`, when both objects allow sharing and the
electrical modes match, succeeds.  `h` is the occupant (list head), `t` its
current `Blink` (the tail of the circular list, equal to `h` itself when
the chain is a singleton).  After the call: the occupant's dispatch address
is the chained dispatch entry point (it is rebound there first when it was
connected normally, and is left there when already chained); the vector
still targets the occupant's dispatch code; the new object is linked at
the tail (`new.Flink = head`, `new.Blink = old tail`, `tail.Flink = new`,
`head.Blink = new`), which is why connecting A, B, C in order yields chain
order A, B, C; and no hardware enable is performed. -/
theorem connect_shared_vector_joins_chain (env : Env) (s : KState)
    (id h t v : Nat)
    (hv : (s.objs id).Vector = v)
    (hvh : (s.objs h).Vector = v)
    (ht : (s.objs h).Blink = t)
    (hval : ¬(HIGH_LEVEL < (s.objs id).Irql ∨
              env.KeNumberProcessors ≤ (s.objs id).Number ∨
              (s.objs id).SynchronizeIrql < (s.objs id).Irql ∨
              (s.objs id).FloatingSave = true))
    (hnc : (s.objs id).Connected = false)
    (hslot : s.idt v = IDTTarget.ObjCode h)
    (hty : (KiGetVectorInfo env s v).CType = CONNECT_TYPE.NormalConnect ∨
           (KiGetVectorInfo env s v).CType = CONNECT_TYPE.ChainConnect)
    (hsh1 : (s.objs id).ShareVector = true)
    (hsh2 : (s.objs h).ShareVector = true)
    (hmode : (s.objs h).Mode = (s.objs id).Mode)
    (hne1 : id ≠ h) (hne2 : id ≠ t) :
    (KeConnectInterrupt env s id).1 = true ∧
    ((KeConnectInterrupt env s id).2.objs id).Connected = true ∧
    ((KeConnectInterrupt env s id).2.objs h).DispatchAddress =
      some (ChainedDispatchEP (env.flatShape v)) ∧
    (KeConnectInterrupt env s id).2.idt v = IDTTarget.ObjCode h ∧
    ((KeConnectInterrupt env s id).2.objs id).Flink = h ∧
    ((KeConnectInterrupt env s id).2.objs id).Blink = t ∧
    ((KeConnectInterrupt env s id).2.objs t).Flink = id ∧
    ((KeConnectInterrupt env s id).2.objs h).Blink = id ∧
    (KeConnectInterrupt env s id).2.enabled = s.enabled := by
  have hfs : (s.objs id).FloatingSave = false := by
    cases hx : (s.objs id).FloatingSave
    · rfl
    · exact absurd (Or.inr (Or.inr (Or.inr hx))) hval
  have h1 : ¬HIGH_LEVEL < (s.objs id).Irql := fun hx => hval (Or.inl hx)
  have h2 : ¬env.KeNumberProcessors ≤ (s.objs id).Number :=
    fun hx => hval (Or.inr (Or.inl hx))
  have h3 : ¬(s.objs id).SynchronizeIrql < (s.objs id).Irql :=
    fun hx => hval (Or.inr (Or.inr (Or.inl hx)))
  have hne1s : ¬(h = id) := fun hx => hne1 hx.symm
  have hne2s : ¬(t = id) := fun hx => hne2 hx.symm
  have hda : (s.objs h).DispatchAddress =
        some (ChainedDispatchEP (env.flatShape v)) ∨
      ((s.objs h).DispatchAddress ≠
          some (ChainedDispatchEP (env.flatShape v)) ∧
        ((s.objs h).DispatchAddress =
            some (InterruptDispatchEP (env.flatShape v)) ∨
          (s.objs h).DispatchAddress =
            some (FloatingDispatchEP (env.flatShape v)))) := by
    by_cases hc : (s.objs h).DispatchAddress =
        some (ChainedDispatchEP (env.flatShape v))
    · exact Or.inl hc
    · refine Or.inr ⟨hc, ?_⟩
      by_cases hn : (s.objs h).DispatchAddress =
            some (InterruptDispatchEP (env.flatShape v)) ∨
          (s.objs h).DispatchAddress =
            some (FloatingDispatchEP (env.flatShape v))
      · exact hn
      · exfalso
        rcases hty with hx | hx <;>
          · simp only [KiGetVectorInfo, hslot] at hx
            rw [if_neg hc, if_neg hn] at hx
            exact absurd hx (by decide)
  rcases hda with hda | ⟨hdc, hda⟩
  · -- occupant already on the chained dispatch handler: no rebind
    rcases eq_or_ne t h with hth | hth
    · subst hth
      simp [KeConnectInterrupt, KiGetVectorInfo,
        KiConnectVectorAndInterruptObject, InsertTailList,
        InitializeListHead, setObj, updObj, updIdt, updEn,
        hfs, h1, h2, h3, hv, hvh, ht, hnc, hslot, hsh1, hsh2, hmode, hda,
        hne1, hne2, hne1s, hne2s]
    · have hths : ¬(h = t) := fun hx => hth hx.symm
      simp [KeConnectInterrupt, KiGetVectorInfo,
        KiConnectVectorAndInterruptObject, InsertTailList,
        InitializeListHead, setObj, updObj, updIdt, updEn,
        hfs, h1, h2, h3, hv, hvh, ht, hnc, hslot, hsh1, hsh2, hmode, hda,
        hne1, hne2, hne1s, hne2s, hth, hths]
  · -- occupant connected normally: rebound to chained dispatch first
    rcases eq_or_ne t h with hth | hth
    · subst hth
      rcases hda with hda | hda <;> cases hflat : env.flatShape v <;>
        simp [KeConnectInterrupt, KiGetVectorInfo,
          KiConnectVectorAndInterruptObject, InsertTailList,
          InitializeListHead, setObj, updObj, updIdt, updEn,
          InterruptDispatchEP, FloatingDispatchEP, ChainedDispatchEP,
          hfs, h1, h2, h3, hv, hvh, ht, hnc, hslot, hsh1, hsh2, hmode, hda,
          hne1, hne2, hne1s, hne2s, hflat]
    · have hths : ¬(h = t) := fun hx => hth hx.symm
      rcases hda with hda | hda <;> cases hflat : env.flatShape v <;>
        simp [KeConnectInterrupt, KiGetVectorInfo,
          KiConnectVectorAndInterruptObject, InsertTailList,
          InitializeListHead, setObj, updObj, updIdt, updEn,
          InterruptDispatchEP, FloatingDispatchEP, ChainedDispatchEP,
          hfs, h1, h2, h3, hv, hvh, ht, hnc, hslot, hsh1, hsh2, hmode, hda,
          hne1, hne2, hne1s, hne2s, hth, hths, hflat]

/-- Witness for C3: object 2 joining object 1 (a singleton normal owner,
so head and tail coincide) on vector 80. -/
theorem connect_shared_vector_joins_chain_witness :
    shConnectB.1 = true ∧
    (shConnectB.2.objs 2).Connected = true ∧
    (shConnectB.2.objs 1).DispatchAddress =
      some (ChainedDispatchEP (env0.flatShape 80)) ∧
    shConnectB.2.idt 80 = IDTTarget.ObjCode 1 ∧
    (shConnectB.2.objs 2).Flink = 1 ∧
    (shConnectB.2.objs 2).Blink = 1 ∧
    (shConnectB.2.objs 1).Flink = 2 ∧
    (shConnectB.2.objs 1).Blink = 2 ∧
    shConnectB.2.enabled = shConnectA.2.enabled :=
  connect_shared_vector_joins_chain env0 shConnectA.2 2 1 1 80
    (by decide) (by decide) (by decide) (by decide) (by decide) (by decide)
    (by decide) (by decide) (by decide) (by decide) (by decide) (by decide)

/-- C4: disconnect of a connected object on a chained vector, in four
parts.  (1) General head removal while at least two members remain
(`x` the head, `nxt = x.Flink` its successor, `prv = x.Blink` the tail,
`nn = nxt.Flink` the member after `nxt`, with `nxt ≠ prv` and `nn ≠ nxt`
so more than one member survives): the next member `nxt` is promoted to
head and the vector is rebound to it, the removed object is unlinked
(`prv.Flink = nxt`, `nxt.Blink = prv`), and — more than one member
remaining — `nxt` stays on the **chained** dispatch entry, the rest of the
chain untouched.  (2) General non-head removal with at least two survivors
(`hd` the head; the post-unlink successor of `hd` differs from `hd`): the
vector table is completely untouched, the head keeps its chained dispatch
address (no promotion, no collapse), and the object is unlinked.
(3) The two-object chain (`a` head, `b` the other member): disconnecting
either member promotes/keeps the survivor as head, and — exactly one
member then remaining — rebinds it from chained to **normal** dispatch
with a self-looped list, leaving it connected in exclusive mode.
(4) Concretely on the three-member chain A=1, B=2, C=3 of `shConnectC`:
removing head A yields head B with C still linked (order B, C) and B still
chained; removing middle B preserves order A, C with A still head and
still chained. -/
theorem KeDisconnectInterrupt_chained_spec :
    (∀ (env : Env) (s : KState) (x nxt prv nn v : Nat),
      (s.objs x).Vector = v →
      (s.objs x).Connected = true →
      s.idt v = IDTTarget.ObjCode x →
      (s.objs x).DispatchAddress =
        some (ChainedDispatchEP (env.flatShape v)) →
      (s.objs x).Flink = nxt →
      (s.objs x).Blink = prv →
      (s.objs nxt).Vector = v →
      (s.objs nxt).Flink = nn →
      x ≠ nxt → x ≠ prv → nxt ≠ prv → nxt ≠ nn →
      (KeDisconnectInterrupt env s x).1 = true ∧
      ((KeDisconnectInterrupt env s x).2.objs x).Connected = false ∧
      (KeDisconnectInterrupt env s x).2.idt v = IDTTarget.ObjCode nxt ∧
      ((KeDisconnectInterrupt env s x).2.objs nxt).DispatchAddress =
        some (ChainedDispatchEP (env.flatShape v)) ∧
      ((KeDisconnectInterrupt env s x).2.objs prv).Flink = nxt ∧
      ((KeDisconnectInterrupt env s x).2.objs nxt).Blink = prv ∧
      ((KeDisconnectInterrupt env s x).2.objs nxt).Flink = nn) ∧
    (∀ (env : Env) (s : KState) (x hd nxt prv v : Nat),
      (s.objs x).Vector = v →
      (s.objs x).Connected = true →
      s.idt v = IDTTarget.ObjCode hd →
      (s.objs hd).DispatchAddress =
        some (ChainedDispatchEP (env.flatShape v)) →
      (s.objs x).Flink = nxt →
      (s.objs x).Blink = prv →
      x ≠ hd → x ≠ nxt → x ≠ prv → prv ≠ nxt →
      (if prv = hd then nxt else (s.objs hd).Flink) ≠ hd →
      (KeDisconnectInterrupt env s x).1 = true ∧
      ((KeDisconnectInterrupt env s x).2.objs x).Connected = false ∧
      (KeDisconnectInterrupt env s x).2.idt = s.idt ∧
      ((KeDisconnectInterrupt env s x).2.objs hd).DispatchAddress =
        some (ChainedDispatchEP (env.flatShape v)) ∧
      ((KeDisconnectInterrupt env s x).2.objs prv).Flink = nxt ∧
      ((KeDisconnectInterrupt env s x).2.objs nxt).Blink = prv) ∧
    (∀ (env : Env) (s : KState) (a b v : Nat),
      a ≠ b →
      (s.objs a).Vector = v → (s.objs b).Vector = v →
      (s.objs a).Connected = true → (s.objs b).Connected = true →
      s.idt v = IDTTarget.ObjCode a →
      (s.objs a).Flink = b → (s.objs a).Blink = b →
      (s.objs b).Flink = a → (s.objs b).Blink = a →
      (s.objs a).DispatchAddress =
        some (ChainedDispatchEP (env.flatShape v)) →
      (s.objs a).FloatingSave = false →
      (s.objs b).FloatingSave = false →
      ((KeDisconnectInterrupt env s a).1 = true ∧
       ((KeDisconnectInterrupt env s a).2.objs a).Connected = false ∧
       ((KeDisconnectInterrupt env s a).2.objs b).Connected = true ∧
       (KeDisconnectInterrupt env s a).2.idt v = IDTTarget.ObjCode b ∧
       ((KeDisconnectInterrupt env s a).2.objs b).DispatchAddress =
         some (InterruptDispatchEP (env.flatShape v)) ∧
       ((KeDisconnectInterrupt env s a).2.objs b).Flink = b ∧
       ((KeDisconnectInterrupt env s a).2.objs b).Blink = b) ∧
      ((KeDisconnectInterrupt env s b).1 = true ∧
       ((KeDisconnectInterrupt env s b).2.objs b).Connected = false ∧
       ((KeDisconnectInterrupt env s b).2.objs a).Connected = true ∧
       (KeDisconnectInterrupt env s b).2.idt v = IDTTarget.ObjCode a ∧
       ((KeDisconnectInterrupt env s b).2.objs a).DispatchAddress =
         some (InterruptDispatchEP (env.flatShape v)) ∧
       ((KeDisconnectInterrupt env s b).2.objs a).Flink = a ∧
       ((KeDisconnectInterrupt env s b).2.objs a).Blink = a)) ∧
    (((KeDisconnectInterrupt env0 shConnectC.2 1).1 = true ∧
      (KeDisconnectInterrupt env0 shConnectC.2 1).2.idt 80 =
        IDTTarget.ObjCode 2 ∧
      ((KeDisconnectInterrupt env0 shConnectC.2 1).2.objs 2).DispatchAddress =
        some Routine.KiChainedDispatch ∧
      ((KeDisconnectInterrupt env0 shConnectC.2 1).2.objs 2).Flink = 3 ∧
      ((KeDisconnectInterrupt env0 shConnectC.2 1).2.objs 3).Flink = 2 ∧
      ((KeDisconnectInterrupt env0 shConnectC.2 1).2.objs 2).Blink = 3 ∧
      ((KeDisconnectInterrupt env0 shConnectC.2 1).2.objs 3).Blink = 2 ∧
      ((KeDisconnectInterrupt env0 shConnectC.2 1).2.objs 1).Connected =
        false ∧
      ((KeDisconnectInterrupt env0 shConnectC.2 1).2.objs 2).Connected =
        true ∧
      ((KeDisconnectInterrupt env0 shConnectC.2 1).2.objs 3).Connected =
        true) ∧
     ((KeDisconnectInterrupt env0 shConnectC.2 2).1 = true ∧
      (KeDisconnectInterrupt env0 shConnectC.2 2).2.idt 80 =
        IDTTarget.ObjCode 1 ∧
      ((KeDisconnectInterrupt env0 shConnectC.2 2).2.objs 1).DispatchAddress =
        some Routine.KiChainedDispatch ∧
      ((KeDisconnectInterrupt env0 shConnectC.2 2).2.objs 1).Flink = 3 ∧
      ((KeDisconnectInterrupt env0 shConnectC.2 2).2.objs 3).Flink = 1 ∧
      ((KeDisconnectInterrupt env0 shConnectC.2 2).2.objs 3).Blink = 1 ∧
      ((KeDisconnectInterrupt env0 shConnectC.2 2).2.objs 2).Connected =
        false)) := by
  refine ⟨?_, ?_, ?_, ?_⟩
  · -- (1) head removal, more than one member remaining
    intro env s x nxt prv nn v hvx hconn hslot hda hf hb hvn hnn hxn hxp
      hnp hnnn
    have hxn' : ¬(nxt = x) := fun hx => hxn hx.symm
    have hxp' : ¬(prv = x) := fun hx => hxp hx.symm
    have hnp' : ¬(prv = nxt) := fun hx => hnp hx.symm
    simp [KeDisconnectInterrupt, KiGetVectorInfo,
      KiConnectVectorAndInterruptObject, RemoveEntryList,
      setObj, updObj, updIdt, updEn,
      hvx, hconn, hslot, hda, hf, hb, hvn, hnn,
      hxn, hxp, hnp, hnnn, hxn', hxp', hnp']
  · -- (2) non-head removal, no collapse
    intro env s x hd nxt prv v hvx hconn hslot hda hf hb hxh hxn hxp hpn
      hcond
    have hxh' : ¬(hd = x) := fun hx => hxh hx.symm
    have hxn' : ¬(nxt = x) := fun hx => hxn hx.symm
    have hxp' : ¬(prv = x) := fun hx => hxp hx.symm
    have hpn' : ¬(nxt = prv) := fun hx => hpn hx.symm
    by_cases hph : prv = hd
    · subst hph
      have hcnh : nxt ≠ prv := hpn'
      have hcnh' : ¬(prv = nxt) := hpn
      simp [KeDisconnectInterrupt, KiGetVectorInfo,
        KiConnectVectorAndInterruptObject, RemoveEntryList,
        setObj, updObj, updIdt, updEn,
        hvx, hconn, hslot, hda, hf, hb, hxh, hxn, hxp,
        hxh', hxn', hxp', hcnh, hcnh']
    · have hph' : ¬(hd = prv) := fun hx => hph hx.symm
      have hcond1 : (s.objs hd).Flink ≠ hd := by
        simpa [hph] using hcond
      have hcond1' : ¬(hd = (s.objs hd).Flink) := fun hx => hcond1 hx.symm
      by_cases hnh : nxt = hd
      · subst hnh
        simp [KeDisconnectInterrupt, KiGetVectorInfo,
          KiConnectVectorAndInterruptObject, RemoveEntryList,
          setObj, updObj, updIdt, updEn,
          hvx, hconn, hslot, hda, hf, hb, hxh, hxn, hxp,
          hxh', hxn', hxp', hph, hph', hpn, hpn', hcond1, hcond1']
      · have hnh' : ¬(hd = nxt) := fun hx => hnh hx.symm
        simp [KeDisconnectInterrupt, KiGetVectorInfo,
          KiConnectVectorAndInterruptObject, RemoveEntryList,
          setObj, updObj, updIdt, updEn,
          hvx, hconn, hslot, hda, hf, hb, hxh, hxn, hxp,
          hxh', hxn', hxp', hph, hph', hnh, hnh', hpn, hpn',
          hcond1, hcond1']
  · -- (3) two-object chain collapses to exclusive on either removal
    intro env s a b v hab hva hvb hca hcb hslot hfa hba hfb hbb hdaa
      hfsa hfsb
    have habs : ¬(b = a) := fun hx => hab hx.symm
    cases hflat : env.flatShape v <;>
      simp [KeDisconnectInterrupt, KiGetVectorInfo,
        KiConnectVectorAndInterruptObject, RemoveEntryList,
        setObj, updObj, updIdt, updEn,
        InterruptDispatchEP, FloatingDispatchEP, ChainedDispatchEP,
        hab, habs, hva, hvb, hca, hcb, hslot, hfa, hba, hfb, hbb,
        hdaa, hfsa, hfsb, hflat]
  · -- (4) concrete three-member chain: head and middle removal
    exact ⟨by decide, by decide⟩

/-- Witness for C4: part (1) applied to removing the head A of the
three-member chain A=1, B=2, C=3 (two members remain, no collapse);
part (2) to removing the middle member B of the same chain; part (3) to
the two-object chain of `shConnectB`. -/
theorem KeDisconnectInterrupt_chained_spec_witness :
    ((KeDisconnectInterrupt env0 shConnectC.2 1).1 = true ∧
     ((KeDisconnectInterrupt env0 shConnectC.2 1).2.objs 1).Connected =
       false ∧
     (KeDisconnectInterrupt env0 shConnectC.2 1).2.idt 80 =
       IDTTarget.ObjCode 2 ∧
     ((KeDisconnectInterrupt env0 shConnectC.2 1).2.objs 2).DispatchAddress =
       some (ChainedDispatchEP (env0.flatShape 80)) ∧
     ((KeDisconnectInterrupt env0 shConnectC.2 1).2.objs 3).Flink = 2 ∧
     ((KeDisconnectInterrupt env0 shConnectC.2 1).2.objs 2).Blink = 3 ∧
     ((KeDisconnectInterrupt env0 shConnectC.2 1).2.objs 2).Flink = 3) ∧
    ((KeDisconnectInterrupt env0 shConnectC.2 2).1 = true ∧
     ((KeDisconnectInterrupt env0 shConnectC.2 2).2.objs 2).Connected =
       false ∧
     (KeDisconnectInterrupt env0 shConnectC.2 2).2.idt = shConnectC.2.idt ∧
     ((KeDisconnectInterrupt env0 shConnectC.2 2).2.objs 1).DispatchAddress =
       some (ChainedDispatchEP (env0.flatShape 80)) ∧
     ((KeDisconnectInterrupt env0 shConnectC.2 2).2.objs 1).Flink = 3 ∧
     ((KeDisconnectInterrupt env0 shConnectC.2 2).2.objs 3).Blink = 1) ∧
    (((KeDisconnectInterrupt env0 shConnectB.2 1).1 = true ∧
      ((KeDisconnectInterrupt env0 shConnectB.2 1).2.objs 1).Connected =
        false ∧
      ((KeDisconnectInterrupt env0 shConnectB.2 1).2.objs 2).Connected =
        true ∧
      (KeDisconnectInterrupt env0 shConnectB.2 1).2.idt 80 =
        IDTTarget.ObjCode 2 ∧
      ((KeDisconnectInterrupt env0 shConnectB.2 1).2.objs 2).DispatchAddress =
        some (InterruptDispatchEP (env0.flatShape 80)) ∧
      ((KeDisconnectInterrupt env0 shConnectB.2 1).2.objs 2).Flink = 2 ∧
      ((KeDisconnectInterrupt env0 shConnectB.2 1).2.objs 2).Blink = 2) ∧
     ((KeDisconnectInterrupt env0 shConnectB.2 2).1 = true ∧
      ((KeDisconnectInterrupt env0 shConnectB.2 2).2.objs 2).Connected =
        false ∧
      ((KeDisconnectInterrupt env0 shConnectB.2 2).2.objs 1).Connected =
        true ∧
      (KeDisconnectInterrupt env0 shConnectB.2 2).2.idt 80 =
        IDTTarget.ObjCode 1 ∧
      ((KeDisconnectInterrupt env0 shConnectB.2 2).2.objs 1).DispatchAddress =
        some (InterruptDispatchEP (env0.flatShape 80)) ∧
      ((KeDisconnectInterrupt env0 shConnectB.2 2).2.objs 1).Flink = 1 ∧
      ((KeDisconnectInterrupt env0 shConnectB.2 2).2.objs 1).Blink = 1)) :=
  ⟨KeDisconnectInterrupt_chained_spec.1 env0 shConnectC.2 1 2 3 3 80
     (by decide) (by decide) (by decide) (by decide) (by decide) (by decide)
     (by decide) (by decide) (by decide) (by decide) (by decide) (by decide),
   KeDisconnectInterrupt_chained_spec.2.1 env0 shConnectC.2 2 1 3 1 80
     (by decide) (by decide) (by decide) (by decide) (by decide) (by decide)
     (by decide) (by decide) (by decide) (by decide) (by decide),
   KeDisconnectInterrupt_chained_spec.2.2.1 env0 shConnectB.2 1 2 80
     (by decide) (by decide) (by decide) (by decide) (by decide) (by decide)
     (by decide) (by decide) (by decide) (by decide) (by decide) (by decide)
     (by decide)⟩

/-- C7: the `Handled` flag of `KiTimedChainedDispatch2ndLvl` is
OR-accumulated and never reset, so (first conjunct) once it is set the
end-of-list `break` — the loop's only fall-through exit — can never be
taken again, whatever the service routines return later; and (second
conjunct) on a chain whose members are all edge-triggered
(non-level-sensitive) the loop then never terminates at all: it exhausts
any finite step budget. -/
theorem chained_dispatch_handled_edge_never_terminates
    (objs : Nat → KINTERRUPT) (svc : Nat → Nat → Bool) (listEnd : Nat) :
    (∀ fuel calls cur m,
      KiTimedChainedDispatch2ndLvl objs svc listEnd fuel calls cur true ≠
        WalkOutcome.EndBreak m) ∧
    ((∀ j, (objs j).Mode ≠ KINTERRUPT_MODE.LevelSensitive) →
      ∀ fuel calls cur,
        KiTimedChainedDispatch2ndLvl objs svc listEnd fuel calls cur true =
          WalkOutcome.OutOfFuel (calls + fuel)) := by
  constructor
  · intro fuel
    induction fuel with
    | zero =>
      intro calls cur m
      simp [KiTimedChainedDispatch2ndLvl]
    | succ n ih =>
      intro calls cur m
      simp only [KiTimedChainedDispatch2ndLvl, Bool.true_or]
      split_ifs <;> simp_all
  · intro hedge fuel
    induction fuel with
    | zero =>
      intro calls cur
      simp [KiTimedChainedDispatch2ndLvl]
    | succ n ih =>
      intro calls cur
      have hc := hedge cur
      have harith : calls + 1 + n = calls + (n + 1) := by omega
      simp only [KiTimedChainedDispatch2ndLvl, Bool.true_or]
      rw [if_neg (by simp [hc])]
      by_cases hfl : (objs cur).Flink = listEnd
      · rw [if_pos hfl, if_neg hc, if_neg (by simp), hfl, ih, harith]
      · rw [if_neg hfl, ih, harith]

/-- Witness for C7 on the concrete two-member edge-triggered chain: with
the handled flag set, the walk is never the end-of-list break and runs out
of any fuel budget. -/
theorem chained_dispatch_handled_edge_never_terminates_witness :
    (KiTimedChainedDispatch2ndLvl edgeChainObjs (fun _ _ => false) 0
        5 0 0 true ≠ WalkOutcome.EndBreak 2) ∧
    KiTimedChainedDispatch2ndLvl edgeChainObjs (fun _ _ => false) 0
        5 0 0 true = WalkOutcome.OutOfFuel (0 + 5) :=
  ⟨(chained_dispatch_handled_edge_never_terminates edgeChainObjs
      (fun _ _ => false) 0).1 5 0 0 2,
   (chained_dispatch_handled_edge_never_terminates edgeChainObjs
      (fun _ _ => false) 0).2
      (fun _ => by simp [edgeChainObjs, blankInterrupt]) 5 0 0⟩

/-- Counterexample to C6 as stated: on a two-member edge-triggered chain
where no service routine ever reports handled, the walk does **not**
"restart from the head and repeat" when it returns to its starting point:
it terminates through the end-of-list break after exactly one pass (two
service calls), independent of the remaining step budget (same outcome
with fuel 10 and fuel 100, where a restarting walk would have consumed
the larger budget and an actually restarting loop could never produce
`EndBreak`). -/
theorem chained_walk_unproductive_edge_exits :
    KiTimedChainedDispatch2ndLvl edgeChainObjs (fun _ _ => false) 0
      10 0 0 false = WalkOutcome.EndBreak 2 ∧
    KiTimedChainedDispatch2ndLvl edgeChainObjs (fun _ _ => false) 0
      100 0 0 false = WalkOutcome.EndBreak 2 := by
  constructor <;> decide

/-- C6 (amended): behaviour of the chained walk when it returns to its
starting point, and on a level-triggered claim.  (1) At the end of the
list with the accumulated handled flag still clear, an edge-triggered
member makes the walk terminate through the `break`; (2) in the same
situation a level-sensitive member trips the
`ASSERT (Interrupt->Mode != LevelSensitive)` — the fatal surface for an
asserted line no device claims; (3) a level-sensitive member whose
accumulated handled flag is set stops the walk immediately; (4) at the end
of the list with the handled flag set, an edge-triggered member sends the
walk back to the start of the chain to repeat. -/
theorem chained_walk_end_of_pass_policy (objs : Nat → KINTERRUPT)
    (svc : Nat → Nat → Bool) (listEnd : Nat) :
    (∀ fuel calls cur h, (objs cur).Flink = listEnd →
      (h || svc calls cur) = false →
      (objs cur).Mode ≠ KINTERRUPT_MODE.LevelSensitive →
      KiTimedChainedDispatch2ndLvl objs svc listEnd (fuel + 1) calls cur h =
        WalkOutcome.EndBreak (calls + 1)) ∧
    (∀ fuel calls cur h, (objs cur).Flink = listEnd →
      (h || svc calls cur) = false →
      (objs cur).Mode = KINTERRUPT_MODE.LevelSensitive →
      KiTimedChainedDispatch2ndLvl objs svc listEnd (fuel + 1) calls cur h =
        WalkOutcome.AssertViolation (calls + 1)) ∧
    (∀ fuel calls cur h, (h || svc calls cur) = true →
      (objs cur).Mode = KINTERRUPT_MODE.LevelSensitive →
      KiTimedChainedDispatch2ndLvl objs svc listEnd (fuel + 1) calls cur h =
        WalkOutcome.HandledLevel (calls + 1)) ∧
    (∀ fuel calls cur h, (objs cur).Flink = listEnd →
      (h || svc calls cur) = true →
      (objs cur).Mode ≠ KINTERRUPT_MODE.LevelSensitive →
      KiTimedChainedDispatch2ndLvl objs svc listEnd (fuel + 1) calls cur h =
        KiTimedChainedDispatch2ndLvl objs svc listEnd fuel (calls + 1)
          listEnd (h || svc calls cur)) := by
  refine ⟨?_, ?_, ?_, ?_⟩
  · intro fuel calls cur h hx hy hz
    simp [KiTimedChainedDispatch2ndLvl, hx, hy, hz]
  · intro fuel calls cur h hx hy hz
    simp [KiTimedChainedDispatch2ndLvl, hx, hy, hz]
  · intro fuel calls cur h hx hy
    simp [KiTimedChainedDispatch2ndLvl, hx, hy]
  · intro fuel calls cur h hx hy hz
    simp [KiTimedChainedDispatch2ndLvl, hx, hy, hz]

/-- Witness for the amended C6, exercising all four conjuncts on the
concrete two-member chains. -/
theorem chained_walk_end_of_pass_policy_witness :
    KiTimedChainedDispatch2ndLvl edgeChainObjs (fun _ _ => false) 0
      3 1 1 false = WalkOutcome.EndBreak 2 ∧
    KiTimedChainedDispatch2ndLvl lvlChainObjs (fun _ _ => false) 0
      3 1 1 false = WalkOutcome.AssertViolation 2 ∧
    KiTimedChainedDispatch2ndLvl lvlChainObjs (fun _ _ => true) 0
      3 0 0 false = WalkOutcome.HandledLevel 1 ∧
    KiTimedChainedDispatch2ndLvl edgeChainObjs (fun _ _ => true) 0
      3 1 1 false =
      KiTimedChainedDispatch2ndLvl edgeChainObjs (fun _ _ => true) 0
        2 2 0 (false || true) :=
  ⟨(chained_walk_end_of_pass_policy edgeChainObjs (fun _ _ => false) 0).1
      2 1 1 false (by decide) (by decide) (by decide),
   (chained_walk_end_of_pass_policy lvlChainObjs (fun _ _ => false) 0).2.1
      2 1 1 false (by decide) (by decide) (by decide),
   (chained_walk_end_of_pass_policy lvlChainObjs (fun _ _ => true) 0).2.2.1
      2 0 0 false (by decide) (by decide),
   (chained_walk_end_of_pass_policy edgeChainObjs (fun _ _ => true) 0).2.2.2
      2 1 1 false (by decide) (by decide) (by decide)⟩

/-- Counterexample to C8 as stated: the second calibration pass multiplies
the TSC delta by the microsecond limit in wrapping 64-bit (`ULONGLONG`)
arithmetic (`Delta *= KiTimeLimitIsrMicroseconds`), so the installed
threshold is `D * L mod 2 ^ 64 / 10 ^ 7`, not the exact-integer
`D * L / 10 ^ 7`.  With a delta of `2 ^ 62` cycles and a configured limit
of 8 microseconds the product `2 ^ 65` wraps to 0 and the installed
threshold is 0, while the exact-arithmetic value is 3689348814741. -/
theorem watchdog_calibration_overflow_counterexample :
    (KiInitializeInterruptTimersDpc 8 (2 ^ 62)
      (KiInitializeInterruptTimersDpc 8 0 initialWatchdog)).KiIsrTscLimit = 0 ∧
    (2 ^ 62 - 0) * 8 / 10000000 = 3689348814741 ∧
    (0 : Nat) ≠ 3689348814741 := by
  refine ⟨by decide, by decide, by decide⟩

/-- C8 (amended): the watchdog threshold starts at the maximum
representable 64-bit value (watchdog disabled); after the calibration DPC
fires twice, with 64-bit cycle-counter readings `tsc1` then `tsc2`
(delta `D = tsc2 - tsc1`) and configured microsecond limit `L`, the active
threshold is `D * L mod 2 ^ 64 / 10 ^ 7` — equal to the exact
`D * L / 10 ^ 7` whenever `D * L < 2 ^ 64` — and the calibration timer is
no longer active; and if the configured limit is zero or the processor
lacks the `RDTSC` feature, `KiInitializeInterruptTimers` returns with no
effect: no timer is set and the threshold keeps its current (disabled)
value. -/
theorem watchdog_calibration_spec (L tsc1 tsc2 : Nat)
    (h1 : tsc1 < 2 ^ 64) (h2 : tsc2 < 2 ^ 64) (h12 : tsc1 ≤ tsc2) :
    KiIsrTscLimitInitial = 2 ^ 64 - 1 ∧
    initialWatchdog.KiIsrTscLimit = 2 ^ 64 - 1 ∧
    (KiInitializeInterruptTimersDpc L tsc2
        (KiInitializeInterruptTimersDpc L tsc1 initialWatchdog)).KiIsrTscLimit =
      (tsc2 - tsc1) * L % 2 ^ 64 / 10000000 ∧
    (KiInitializeInterruptTimersDpc L tsc2
        (KiInitializeInterruptTimersDpc L tsc1 initialWatchdog)).TimerActive =
      false ∧
    ((tsc2 - tsc1) * L < 2 ^ 64 →
      (tsc2 - tsc1) * L % 2 ^ 64 / 10000000 = (tsc2 - tsc1) * L / 10000000) ∧
    (∀ rd aok w, KiInitializeInterruptTimers rd 0 aok w = w) ∧
    (∀ aok w, KiInitializeInterruptTimers false L aok w = w) := by
  have hne : ¬((2 : Nat) ^ 64 - 2 = 2 ^ 64 - 1) := by decide
  refine ⟨rfl, rfl, ?_, ?_, ?_, ?_, ?_⟩
  · simp only [KiInitializeInterruptTimersDpc, initialWatchdog,
      KiIsrTscLimitInitial]
    simp [hne]
    conv_lhs => rw [← Nat.mod_mul_mod]
    have hkey : (tsc2 % 18446744073709551616 + 18446744073709551616 -
        tsc1 % 18446744073709551616) % 18446744073709551616 =
        tsc2 - tsc1 := by omega
    rw [hkey]
  · simp [KiInitializeInterruptTimersDpc, initialWatchdog,
      KiIsrTscLimitInitial, hne]
  · intro hlt
    rw [Nat.mod_eq_of_lt hlt]
  · intro rd aok w
    simp [KiInitializeInterruptTimers]
  · intro aok w
    rcases Nat.eq_zero_or_pos L with hL | hL
    · simp [KiInitializeInterruptTimers, hL]
    · simp [KiInitializeInterruptTimers, Nat.pos_iff_ne_zero.mp hL]

/-- Witness for the amended C8: a 3 GHz processor over the ten-second
sample (`D = 3 * 10 ^ 10`) with a 100-microsecond limit yields a threshold
of 300000 cycles. -/
theorem watchdog_calibration_spec_witness :
    KiIsrTscLimitInitial = 2 ^ 64 - 1 ∧
    initialWatchdog.KiIsrTscLimit = 2 ^ 64 - 1 ∧
    (KiInitializeInterruptTimersDpc 100 30000000000
        (KiInitializeInterruptTimersDpc 100 0 initialWatchdog)).KiIsrTscLimit =
      (30000000000 - 0) * 100 % 2 ^ 64 / 10000000 ∧
    (KiInitializeInterruptTimersDpc 100 30000000000
        (KiInitializeInterruptTimersDpc 100 0 initialWatchdog)).TimerActive =
      false ∧
    ((30000000000 - 0) * 100 < 2 ^ 64 →
      (30000000000 - 0) * 100 % 2 ^ 64 / 10000000 =
        (30000000000 - 0) * 100 / 10000000) ∧
    (∀ rd aok w, KiInitializeInterruptTimers rd 0 aok w = w) ∧
    (∀ aok w, KiInitializeInterruptTimers false 100 aok w = w) :=
  watchdog_calibration_spec 100 0 30000000000 (by decide) (by decide)
    (by decide)

end Intobj
